import Mathlib

/-
Verification of the node/service lifecycle core of the cloud_deploy
repository (src/cloud_deploy/nodes.py and src/cloud_deploy/services.py).

The embedding is shallow: each Python function relevant to the claims is
translated into an executable Lean definition.  Python dictionaries are
modelled as association lists with Python dict-assignment semantics
(replace the value of an existing key in place, otherwise append), which
preserves insertion order exactly as CPython does.  Python exceptions are
modelled with an explicit Except monad; the distinct exception classes the
code raises or catches become constructors of PyExc.  The remote side
(the SSH channel and the Docker daemon on the remote host) is external to
the repository, so it enters the model as explicit parameters: an oracle
for the outcome of each SSH command, and a small state machine for the
containers a Docker host holds, following the documented semantics of the
docker subcommands the code issues (stop, start, rename, rm -f, run -d).
-/

namespace CloudDeploy

/-- Python exception values raised or caught by the embedded code:
generic Exception(msg), spur.ssh.ConnectionError, spur.RunProcessError,
and TypeError (raised when a None response is used as a string). -/
inductive PyExc where
  | exception (msg : String)
  | connectionError (msg : String)
  | runProcessError (msg : String)
  | typeError (msg : String)
deriving DecidableEq, Repr

instance {ε α : Type} [DecidableEq ε] [DecidableEq α] : DecidableEq (Except ε α) :=
  fun x y =>
    match x, y with
    | Except.ok a, Except.ok b =>
        if h : a = b then isTrue (by rw [h])
        else isFalse (fun he => by cases he; exact h rfl)
    | Except.ok _, Except.error _ => isFalse (fun h => Except.noConfusion h)
    | Except.error _, Except.ok _ => isFalse (fun h => Except.noConfusion h)
    | Except.error e, Except.error f =>
        if h : e = f then isTrue (by rw [h])
        else isFalse (fun he => by cases he; exact h rfl)

/-- Helper of pySplit: walk the character list, cutting at each separator
occurrence; acc holds the characters of the current field in reverse. -/
def pySplitAux (sep : Char) : List Char → List Char → List (List Char)
  | [], acc => [acc.reverse]
  | c :: cs, acc =>
      if c = sep then acc.reverse :: pySplitAux sep cs []
      else pySplitAux sep cs (c :: acc)

/-- Python str.split(sep) for a one-character separator (the only form the
code uses: "=", "/", and the newline).  The empty string splits to a list
holding one empty field, and separators at the ends produce empty fields,
exactly as in Python. -/
def pySplit (s : String) (sep : Char) : List String :=
  (pySplitAux sep s.data []).map String.mk

/-- Python dict assignment d[k] = v on an association list: if the key is
present, its value is replaced in place (insertion order kept, as in
CPython); otherwise the pair is appended at the end. -/
def dictSet {α : Type} : List (String × α) → String → α → List (String × α)
  | [], k, v => [(k, v)]
  | (k', v') :: rest, k, v =>
      if k' = k then (k, v) :: rest else (k', v') :: dictSet rest k v

/-- The fixed ordered candidate list of private key filenames probed by
Node._remote_execute (src/cloud_deploy/nodes.py line 119). -/
def list_possible_keys_format : List String := ["id_dsa", "id_rsa"]

/-- The message of the exception raised by the key check of
Node._remote_execute (nodes.py line 125). -/
def key_error_msg : String :=
  "No key from ~/.ssh/ matches the list_possible_keys_format [id_dsa, id_rsa]"

/-- The key-presence loop at the top of Node._remote_execute (nodes.py
lines 122-125), translated literally: for each candidate key, if the file
is missing AND the candidate is the last element of the candidate list,
raise; otherwise continue.  isfile models os.path.isfile for each
candidate filename under the .ssh directory. -/
def key_check_loop (isfile : String → Bool) : List String → Except PyExc Unit
  | [] => Except.ok ()
  | k :: rest =>
      if isfile k = false then
        if list_possible_keys_format.getLastD "" = k then
          Except.error (PyExc.exception key_error_msg)
        else
          key_check_loop isfile rest
      else
        key_check_loop isfile rest

/-- The per-key execution loop of Node._remote_execute (nodes.py lines
127-138): for each candidate key open a shell and try to run the command;
the bare except-pass clause swallows every exception raised by the
attempt, and when no attempt returned, the loop falls off the end of the
function, which therefore returns None.  run models the outcome of
shell.run for the shell authenticated with the given key. -/
def exec_loop (run : String → Except PyExc String) : List String → Option String
  | [] => none
  | k :: rest =>
      match run k with
      | Except.ok out => some out
      | Except.error _ => exec_loop run rest

/-- Node._remote_execute (nodes.py lines 118-138): run the key-presence
check, then the per-key execution loop.  The returned value is the text
the remote command produced, or none when every attempt failed (Python
falls off the end of the function and returns None). -/
def remote_execute (isfile : String → Bool) (run : String → Except PyExc String) :
    Except PyExc (Option String) :=
  match key_check_loop isfile list_possible_keys_format with
  | Except.error e => Except.error e
  | Except.ok () => Except.ok (exec_loop run list_possible_keys_format)

/-- The ports loop of Service.from_json (src/cloud_deploy/services.py
lines 80-84).  A NetworkSettings.Ports entry is a key and either null or
a list of binding records; each binding record is reduced here to its
HostPort string, which is the only field the code reads.  Null values are
skipped; a non-null value contributes the entry keyed by the text before
the first slash of the key (k.split("/")[0]) with the HostPort of the
first binding (v[0]); indexing an empty binding list raises IndexError. -/
def parse_ports : List (String × Option (List String)) → List (String × String) →
    Except PyExc (List (String × String))
  | [], ports => Except.ok ports
  | (_, none) :: rest, ports => parse_ports rest ports
  | (_, some []) :: _, _ =>
      Except.error (PyExc.exception "IndexError: list index out of range")
  | (k, some (h :: _)) :: rest, ports =>
      parse_ports rest (dictSet ports ((pySplit k (Char.ofNat 47)).headD "") h)

/-- The env loop of Service.from_json (services.py lines 85-91),
translated literally: parts = item.split("="); the key is parts[0] and
the value is the empty-string join of the remaining parts, so the
delimiters inside the value are not restored. -/
def parse_env : List String → List (String × String) → List (String × String)
  | [], env => env
  | item :: rest, env =>
      let parts := pySplit item (Char.ofNat 61)
      parse_env rest (dictSet env (parts.headD "") (String.join (parts.drop 1)))

/-- The flattened attribute record that Node._save_services_to_cache
persists for one service (nodes.py lines 231-236): exactly the fields
name, image, status, id, ports, env, volumes.  status and id may be
Python None; ports and env are dicts of strings; volumes a list of
paths.  All fields are JSON-serializable without loss, so the JSON file
round trip is modelled as the identity on these records. -/
structure ServiceRecord where
  name : String
  image : String
  status : Option String
  id : Option String
  ports : List (String × String)
  env : List (String × String)
  volumes : List String
deriving DecidableEq, Repr

/-- A Service instance (services.py lines 47-55): the record fields plus
the owning node, kept here by name (the node back-reference is only used
to address remote operations). -/
structure Service where
  node : String
  name : String
  image : String
  status : Option String
  id : Option String
  ports : List (String × String)
  env : List (String × String)
  volumes : List String
deriving DecidableEq, Repr

/-- The per-service dict built by Node._save_services_to_cache
(nodes.py lines 233-234): getattr(service, a) for the seven persisted
attribute names. -/
def Service.toRecord (s : Service) : ServiceRecord :=
  ⟨s.name, s.image, s.status, s.id, s.ports, s.env, s.volumes⟩

/-- The reconstruction done by Node._load_services_from_cache (nodes.py
line 218): Service(node=self, **attributes). -/
def Service.ofRecord (node : String) (r : ServiceRecord) : Service :=
  ⟨node, r.name, r.image, r.status, r.id, r.ports, r.env, r.volumes⟩

/-- The on-disk cache document (nodes.py CACHE_FILE): a JSON object
mapping each node name to its list of service records.  The intermediate
per-node object holding the single key "services" is flattened away. -/
abbrev Cache := List (String × List ServiceRecord)

/-- Node._have_cache (nodes.py lines 204-211): the cache file exists and
holds an entry for this node name.  The absent-file case is the empty
cache. -/
def have_cache (cache : Cache) (nodeName : String) : Bool :=
  (cache.lookup nodeName).isSome

/-- Node._load_services_from_cache (nodes.py lines 213-223): when the
node has a cache entry, rebuild a Service from each stored record with
this node as owner; otherwise the empty list. -/
def load_services_from_cache (cache : Cache) (nodeName : String) : List Service :=
  match cache.lookup nodeName with
  | some recs => recs.map (Service.ofRecord nodeName)
  | none => []

/-- Node._save_services_to_cache (nodes.py lines 225-238): read the
existing cache document (here the cache argument), replace this node's
entry wholesale with the flattened records of the given services, and
write the document back (the returned cache). -/
def save_services_to_cache (cache : Cache) (nodeName : String)
    (services : List Service) : Cache :=
  dictSet cache nodeName (services.map Service.toRecord)

/-- Node.services (nodes.py lines 171-196).  show_all only alters the
text of the remote command, not the control flow, and is omitted.
remoteResp is the outcome of the _remote_execute call for the docker ps
command; inspect models get_service, resolving one container id to a
Service (its own remote call is abstracted as an oracle since no claim
concerns its failure).  The try block catches exactly
spur.ssh.ConnectionError, logs it, and proceeds with response = None;
a falsy response (None or the empty string) yields no ids, otherwise the
stripped response is split on newlines.  The resulting list is assigned
to _cached_services, whose setter is _save_services_to_cache. -/
def services (cache : Cache) (nodeName : String) (update : Bool)
    (remoteResp : Except PyExc (Option String)) (inspect : String → Service) :
    Except PyExc (List Service × Cache) :=
  if update || !(have_cache cache nodeName) then
    match
      (match remoteResp with
       | Except.error (PyExc.connectionError _) => Except.ok none
       | r => r) with
    | Except.error e => Except.error e
    | Except.ok response =>
        let ids : List String :=
          match response with
          | some s => if s = "" then [] else pySplit s.trim (Char.ofNat 10)
          | none => []
        let svcs := ids.map inspect
        Except.ok (svcs, save_services_to_cache cache nodeName svcs)
  else
    Except.ok (load_services_from_cache cache nodeName, cache)

/-- Python substring containment (the "in" operator on strings): some
index of the haystack starts an occurrence of the needle.  The empty
needle is contained in every string, as in Python. -/
def strContains (hay needle : String) : Bool :=
  (List.range (hay.length + 1)).any fun i => needle.data.isPrefixOf (hay.data.drop i)

/-- The response handling of Node.pull (nodes.py lines 157-162): given
the text returned by _remote_execute for the docker pull command, return
True when it contains one of the two success markers, otherwise raise
Exception(result2) carrying the raw remote output.  A None response
(total transport failure, see exec_loop) hits the "in" operator first and
raises TypeError. -/
def pull (result2 : Option String) : Except PyExc Bool :=
  match result2 with
  | none => Except.error (PyExc.typeError "argument of type NoneType is not iterable")
  | some r =>
      if strContains r "Downloaded newer image" || strContains r "Image is up to date" then
        Except.ok true
      else
        Except.error (PyExc.exception r)

/-- The command string built by Service.launch (services.py lines
139-155), translated format-string by format-string: a bound port is
rendered "-p p1:p2 " with a trailing space, an unbound port "-p p1" with
none; an env entry is rendered as a double-quoted "-e" flag with a
trailing space; a volume is rendered "-v d:d" with no trailing space;
the five pieces are joined by single spaces in the final format string.
The guards "if self.ports:" etc. are omitted because an empty fold
already yields the empty string. -/
def launch_cmd (name : String) (ports : List (String × Option String))
    (env : List (String × String)) (volumes : List String) (image : String) : String :=
  let ports_str := ports.foldl (fun acc pv =>
    match pv.2 with
    | none => acc ++ "-p " ++ pv.1
    | some p2 => acc ++ "-p " ++ pv.1 ++ ":" ++ p2 ++ " ") ""
  let env_str := env.foldl (fun acc kv =>
    acc ++ "-e \x22" ++ kv.1 ++ "=" ++ kv.2 ++ "\x22 ") ""
  let vol_str := volumes.foldl (fun acc d => acc ++ "-v " ++ d ++ ":" ++ d) ""
  "docker run -d --name=" ++ name ++ " " ++ ports_str ++ " " ++ env_str ++ " " ++
    vol_str ++ " " ++ image

/-- Shell word splitting of a command string: split on spaces and drop
empty words.  This coincides with shlex.split (which _remote_execute
applies to the command) for commands containing no quote characters,
which is the case for every input used in the theorems below. -/
def shellWords (cmd : String) : List String :=
  (pySplit cmd (Char.ofNat 32)).filter (fun w => w != "")

/-- One container on the remote Docker host: its id, its current name,
and whether it is running. -/
structure Container where
  id : String
  name : String
  running : Bool
deriving DecidableEq, Repr

/-- The containers a remote Docker host holds.  The docker_* operations
below model the documented effect of the docker subcommands the code
sends through _remote_execute; the daemon itself is external to the
repository. -/
abbrev DockerHost := List Container

/-- Effect of docker stop ID: the container with that id stops. -/
def docker_stop (h : DockerHost) (id : String) : DockerHost :=
  h.map fun c => if c.id = id then { c with running := false } else c

/-- Effect of docker start ID: the container with that id runs. -/
def docker_start (h : DockerHost) (id : String) : DockerHost :=
  h.map fun c => if c.id = id then { c with running := true } else c

/-- Effect of docker rename OLD NEW: the container named OLD is renamed. -/
def docker_rename (h : DockerHost) (old new : String) : DockerHost :=
  h.map fun c => if c.name = old then { c with name := new } else c

/-- Effect of docker rm -f ID (Node.terminate_service): the container
with that id is removed, running or not. -/
def docker_rm (h : DockerHost) (id : String) : DockerHost :=
  h.filter fun c => c.id != id

/-- Effect of a successful docker run -d --name=NAME (Service.launch): a
fresh running container with the given name is created. -/
def docker_run_create (h : DockerHost) (name newId : String) : DockerHost :=
  h ++ [⟨newId, name, true⟩]

/-- Service.redeploy (services.py lines 161-174) as a transition on the
remote host state, for a service whose canonical name and current
container id are given.  pull has no effect on the containers.  The
launch outcome is a parameter: some newId when the docker run succeeds,
none when launch raises spur.RunProcessError (the exception class the
except clause catches).  On success the finally clause terminates
old_id; on failure the except clause renames the -old container back,
restarts old_id, and re-raises, after which the finally clause still
terminates old_id.  The returned Bool is whether the exception
propagates to the caller. -/
def redeploy (host : DockerHost) (name id : String) (launchOutcome : Option String) :
    DockerHost × Bool :=
  let h1 := docker_stop host id
  let h2 := docker_rename h1 name (name ++ "-old")
  let old_id := id
  match launchOutcome with
  | some newId =>
      let h3 := docker_run_create h2 name newId
      (docker_rm h3 old_id, false)
  | none =>
      let h3 := docker_rename h2 (name ++ "-old") name
      let h4 := docker_start h3 old_id
      (docker_rm h4 old_id, true)

/-- The number of running containers bearing the given name on the host. -/
def running_named (h : DockerHost) (name : String) : Nat :=
  (h.filter fun c => c.name == name && c.running).length

theorem toRecord_ofRecord (n : String) (r : ServiceRecord) :
    Service.toRecord (Service.ofRecord n r) = r := rfl

theorem lookup_dictSet {α : Type} (d : List (String × α)) (k : String) (v : α) :
    (dictSet d k v).lookup k = some v := by
  induction d with
  | nil => simp [dictSet, List.lookup]
  | cons head tail ih =>
    obtain ⟨k', v'⟩ := head
    by_cases h : k' = k
    · subst h
      simp [dictSet, List.lookup]
    · have hkk : (k == k') = false := beq_eq_false_iff_ne.mpr (Ne.symm h)
      simp [dictSet, h, List.lookup, hkk, ih]

theorem services_live_conn_failure (cache : Cache) (nodeName : String)
    (update : Bool) (resp : Except PyExc (Option String)) (inspect : String → Service)
    (hcond : (update || !(have_cache cache nodeName)) = true)
    (hresp : (∃ m, resp = Except.error (PyExc.connectionError m)) ∨
      resp = Except.ok none) :
    services cache nodeName update resp inspect
      = Except.ok ([], save_services_to_cache cache nodeName []) := by
  unfold services
  rw [hcond]
  rcases hresp with ⟨m, rfl⟩ | rfl <;> simp

/-- C1: the claim says a redeploy whose launch fails leaves exactly one
running container under the canonical name (the restored original) and
re-raises the failure.  Evaluating the embedded redeploy on a host whose
only container is the running original (id c1, name web) with the launch
raising spur.RunProcessError: the except clause does rename the -old
container back and restart it, and the exception does propagate, but the
finally clause then terminates old_id, which is the id of that same
restored container, so the final host is empty and zero containers run
under the canonical name. -/
theorem redeploy_launch_failure_destroys_original :
    redeploy [⟨"c1", "web", true⟩] "web" "c1" none = ([], true) ∧
    running_named (redeploy [⟨"c1", "web", true⟩] "web" "c1" none).1 "web" = 0 := by
  decide

/-- C2: the claim says an SSH transport failure inside _remote_execute
propagates to every caller except the service-listing path.  Evaluating
the embedded _remote_execute with both candidate key files present and
every per-key attempt raising spur.ssh.ConnectionError: the bare
except-pass clause swallows each failure and the function returns None
(Except.ok none), so no error whatsoever reaches the caller. -/
theorem remote_execute_swallows_connection_error :
    remote_execute (fun _ => true)
        (fun _ => Except.error (PyExc.connectionError "connection refused"))
      = Except.ok none ∧
    ∀ e : PyExc,
      remote_execute (fun _ => true)
          (fun _ => Except.error (PyExc.connectionError "connection refused"))
        ≠ Except.error e := by
  have h0 : remote_execute (fun _ => true)
      (fun _ => Except.error (PyExc.connectionError "connection refused"))
      = Except.ok none := rfl
  exact ⟨h0, fun e he => by rw [h0] at he; exact Except.noConfusion he⟩

/-- C3: the claim says the env entry B=x=y parses to the mapping of B to
x=y (delimiters inside the value reconstructed).  Evaluating the env loop
of Service.from_json on Config.Env = [A=1, B=x=y]: the value is the
empty-string join of the remaining split segments, so B maps to xy and
not to x=y. -/
theorem from_json_env_drops_delimiter :
    parse_env ["A=1", "B=x=y"] [] = [("A", "1"), ("B", "xy")] ∧
    parse_env ["A=1", "B=x=y"] [] ≠ [("A", "1"), ("B", "x=y")] := by
  decide

/-- C4 counterexample: the claim says the input with a null 80/tcp entry
and a bound 443/tcp entry yields the ports mapping keyed by 443/tcp.  The
ports loop of Service.from_json keys each bound entry by
k.split("/")[0], so the resulting mapping is keyed by 443, not 443/tcp. -/
theorem ports_mapping_not_as_claimed :
    parse_ports [("80/tcp", none), ("443/tcp", some ["8443"])] []
      ≠ Except.ok [("443/tcp", "8443")] := by
  decide

/-- C4 amended: Service.from_json drops every NetworkSettings.Ports entry
whose value is null, and maps each bound port key, with its protocol
suffix stripped, to its first HostPort string: the example input yields
the mapping of 443 to 8443 with no entry for port 80.  The second
conjunct states the null-dropping in general: a null entry anywhere in
the ports list leaves the parse unchanged. -/
theorem ports_null_dropped_keys_stripped :
    parse_ports [("80/tcp", none), ("443/tcp", some ["8443"])] []
      = Except.ok [("443", "8443")] ∧
    ∀ (pre : List (String × Option (List String))) (k : String)
      (post : List (String × Option (List String))) (acc : List (String × String)),
      parse_ports (pre ++ (k, none) :: post) acc = parse_ports (pre ++ post) acc := by
  refine ⟨by decide, fun pre k post acc => ?_⟩
  induction pre generalizing acc with
  | nil => rfl
  | cons head tail ih =>
    obtain ⟨k', v⟩ := head
    rcases v with _ | (_ | ⟨h, t⟩)
    · exact ih acc
    · rfl
    · exact ih _

/-- C5: writing any service list to the cache for a node and then calling
services with update=false returns services whose persisted attributes
(name, image, status, id, ports, env, volumes) are exactly those written:
the cache entry written by _save_services_to_cache is found, the cached
list is returned without touching the remote side, and every returned
service projects to the same attribute record as the service written. -/
theorem services_cache_roundtrip (cache : Cache) (nodeName : String)
    (svcs : List Service) (resp : Except PyExc (Option String))
    (inspect : String → Service) :
    services (save_services_to_cache cache nodeName svcs) nodeName false resp inspect
      = Except.ok (svcs.map (fun s => Service.ofRecord nodeName s.toRecord),
          save_services_to_cache cache nodeName svcs) ∧
    (svcs.map (fun s => Service.ofRecord nodeName s.toRecord)).map Service.toRecord
      = svcs.map Service.toRecord := by
  have hlook : (save_services_to_cache cache nodeName svcs).lookup nodeName
      = some (svcs.map Service.toRecord) :=
    lookup_dictSet cache nodeName (svcs.map Service.toRecord)
  have hc : have_cache (save_services_to_cache cache nodeName svcs) nodeName = true := by
    simp [have_cache, hlook]
  constructor
  · unfold services
    rw [hc]
    simp [load_services_from_cache, hlook, List.map_map, Function.comp]
  · simp [List.map_map, Function.comp, toRecord_ofRecord]

/-- C6: Node.pull returns success exactly when the remote response text
contains one of the two recognized success markers, and otherwise raises
an exception carrying the raw remote output: the up-to-date status line
succeeds, the daemon error line raises with exactly that text, and in
general the result is ok true precisely when a marker occurs, every other
response raising an exception that embeds the response verbatim. -/
theorem pull_success_iff_marker :
    pull (some "Status: Image is up to date for foo:latest") = Except.ok true ∧
    pull (some "Error response from daemon: pull access denied for foo")
      = Except.error (PyExc.exception "Error response from daemon: pull access denied for foo") ∧
    (∀ s : String, pull (some s) = Except.ok true ∨
      pull (some s) = Except.error (PyExc.exception s)) ∧
    (∀ s : String, pull (some s) = Except.ok true ↔
      (strContains s "Downloaded newer image" || strContains s "Image is up to date") = true) := by
  refine ⟨by decide, by decide, fun s => ?_, fun s => ?_⟩
  · by_cases h : (strContains s "Downloaded newer image" ||
        strContains s "Image is up to date") = true
    · left
      simp [pull, h]
    · right
      simp [pull, h]
  · by_cases h : (strContains s "Downloaded newer image" ||
        strContains s "Image is up to date") = true
    · simp [pull, h]
    · simp [pull, h]

/-- C7: the claim says the fatal key-configuration error is raised only
when no usable key file exists among the candidates.  Evaluating the
embedded _remote_execute with os.path.isfile true exactly for id_dsa (so
at least one candidate key exists) and every remote run succeeding: the
key-check loop still raises, because its condition fires whenever the
last candidate (id_rsa) is missing, regardless of the earlier ones. -/
theorem key_check_raises_despite_existing_key :
    remote_execute (fun k => k == "id_dsa") (fun _ => Except.ok "container-id")
      = Except.error (PyExc.exception key_error_msg) ∧
    list_possible_keys_format.any (fun k => k == "id_dsa") = true := by
  decide

/-- C8: for every call of Node.services that performs a live query
(update true, or no cache entry for the node), a remote connection
failure during the query yields the empty service list instead of
propagating: this holds both when the failure surfaces as
spur.ssh.ConnectionError (caught by the except clause) and when
_remote_execute swallows it and returns None (the falsy-response branch). -/
theorem services_connection_failure_degrades_to_empty (cache : Cache)
    (nodeName m : String) (update : Bool)
    (resp : Except PyExc (Option String)) (inspect : String → Service)
    (hlive : update = true ∨ have_cache cache nodeName = false)
    (hresp : resp = Except.error (PyExc.connectionError m) ∨ resp = Except.ok none) :
    services cache nodeName update resp inspect
      = Except.ok ([], save_services_to_cache cache nodeName []) := by
  apply services_live_conn_failure
  · rcases hlive with rfl | h
    · simp
    · simp [h]
  · rcases hresp with rfl | rfl
    · exact Or.inl ⟨m, rfl⟩
    · exact Or.inr rfl

/-- Witness for C8 at a concrete input: empty cache, update true, the ps
query raising a connection error. -/
theorem services_connection_failure_degrades_to_empty_witness :
    services [] "node1" true (Except.error (PyExc.connectionError "unreachable"))
        (fun i => Service.ofRecord "node1" ⟨i, "img", none, none, [], [], []⟩)
      = Except.ok ([], save_services_to_cache [] "node1" []) :=
  services_connection_failure_degrades_to_empty [] "node1" "unreachable" true
    (Except.error (PyExc.connectionError "unreachable"))
    (fun i => Service.ofRecord "node1" ⟨i, "img", none, none, [], [], []⟩)
    (Or.inl rfl) (Or.inl rfl)

/-- C9: the claim says every port, env and volume flag of the launch
command appears as a distinct, correctly delimited shell argument.
Evaluating the command builder of Service.launch: with the two volumes
/data and /logs the two -v flags are concatenated with no separating
space, so the argument /data:/data never appears (the glued token
/data:/data-v does); likewise an unbound port followed by another port
glues -p 80 onto the next flag. -/
theorem launch_cmd_flags_not_delimited :
    launch_cmd "web" [] [] ["/data", "/logs"] "nginx"
      = "docker run -d --name=web   -v /data:/data-v /logs:/logs nginx" ∧
    shellWords (launch_cmd "web" [] [] ["/data", "/logs"] "nginx")
      = ["docker", "run", "-d", "--name=web", "-v", "/data:/data-v",
          "/logs:/logs", "nginx"] ∧
    "/data:/data" ∉ shellWords (launch_cmd "web" [] [] ["/data", "/logs"] "nginx") ∧
    shellWords (launch_cmd "api" [("80", none), ("443", some "8443")] [] [] "img")
      = ["docker", "run", "-d", "--name=api", "-p", "80-p", "443:8443", "img"] := by
  refine ⟨rfl, by decide, by decide, by decide⟩

/-- C10: a live services query (update true) that hits a connection
failure overwrites the node's existing cache entry with the empty list it
returns: the node previously had a cached record list, and afterwards the
cache maps the node to the empty list, erasing the last-known state. -/
theorem live_query_overwrites_cache_on_failure (cache : Cache)
    (nodeName m : String) (prev : List ServiceRecord) (inspect : String → Service)
    (_hprev : cache.lookup nodeName = some prev) :
    services cache nodeName true (Except.error (PyExc.connectionError m)) inspect
      = Except.ok ([], save_services_to_cache cache nodeName []) ∧
    (save_services_to_cache cache nodeName []).lookup nodeName = some [] := by
  constructor
  · apply services_live_conn_failure
    · simp
    · exact Or.inl ⟨m, rfl⟩
  · exact lookup_dictSet cache nodeName (([] : List Service).map Service.toRecord)

/-- Witness for C10 at a concrete input: the cache holds one record for
node1, the live query raises a connection error, and the entry is
overwritten with the empty list. -/
theorem live_query_overwrites_cache_on_failure_witness :
    services [("node1", [⟨"web", "nginx", some "running", some "c1", [], [], []⟩])]
        "node1" true (Except.error (PyExc.connectionError "unreachable"))
        (fun i => Service.ofRecord "node1" ⟨i, "img", none, none, [], [], []⟩)
      = Except.ok ([], save_services_to_cache
          [("node1", [⟨"web", "nginx", some "running", some "c1", [], [], []⟩])]
          "node1" []) ∧
    (save_services_to_cache
        [("node1", [⟨"web", "nginx", some "running", some "c1", [], [], []⟩])]
        "node1" []).lookup "node1" = some [] :=
  live_query_overwrites_cache_on_failure
    [("node1", [⟨"web", "nginx", some "running", some "c1", [], [], []⟩])]
    "node1" "unreachable" [⟨"web", "nginx", some "running", some "c1", [], [], []⟩]
    (fun i => Service.ofRecord "node1" ⟨i, "img", none, none, [], [], []⟩)
    (by decide)

end CloudDeploy
